import Mathlib

/-!
Shallow embedding of the daily-selfie-checkin local store and sync layer.

Sources:
* `src/unnamed/part_002` — the local `StorageService` (IndexedDB blob store +
  localStorage metadata index).
* `src/src/lib/api.ts` — `ApiService` and `HybridStorageService.storeCheckinWithSync`.
* `src/src/lib/firebase-storage.ts` — `FirebaseStorageService.getStats`.
* `src/src/lib/supabase-storage.ts` — `SupabaseStorageService.getStats`.

Modelling conventions:
* `Date.now()` and `Math.random().toString(36).substr(2, 9)` are read from two
  environment streams (`Env.clock`, `Env.rand`), each consumed in program order
  by a tick counter carried in the `World` state.
* IndexedDB request failures and `localStorage.setItem` failures are injected
  through `Env.blobFault` / `Env.metaFault`: when set, the corresponding
  persistence request rejects with that error string, mirroring
  `request.onerror = () => reject(request.error)`.
* The `localStorage` slot `selfie_checkins` holds a JSON string in the code;
  `JSON.parse (JSON.stringify l) = l` for these records, so the slot is
  modelled as the parsed value `Option (List CheckinData)` (`none` = key
  absent). The serialized form is still produced, for the size estimate only.
* A thrown JavaScript `Error` is modelled as `ThrownError`; its `cause` field
  records an attached original cause, when any was attached.
-/

namespace SelfieCheckin

/-- An opaque binary payload (the bytes of a selfie image `Blob`). -/
abbrev ImageBytes := List Nat

/-- The nested `location` object of `CheckinData` (storage.ts, lines 5-10). -/
structure LocationReading where
  latitude : Rat
  longitude : Rat
  accuracy : Rat
  timestamp : Nat
deriving DecidableEq

/-- `CheckinData` from storage.ts (lines 1-13). -/
structure CheckinData where
  id : String
  userCode : String
  timestamp : Nat
  location : LocationReading
  imageId : String
  submissionId : String
deriving DecidableEq

/-- `Omit<CheckinData, 'id'>`: the argument of `StorageService.storeCheckin`. -/
structure CheckinInput where
  userCode : String
  timestamp : Nat
  location : LocationReading
  imageId : String
  submissionId : String
deriving DecidableEq

/-- Spread `{ id: checkinId, ...data }`. -/
def CheckinInput.withId (d : CheckinInput) (i : String) : CheckinData :=
  ⟨i, d.userCode, d.timestamp, d.location, d.imageId, d.submissionId⟩

/-- `StoredImage` from storage.ts (lines 15-19). -/
structure StoredImage where
  id : String
  blob : ImageBytes
  timestamp : Nat
deriving DecidableEq

/-- A thrown JavaScript `Error`: its message, and the original cause when one
was attached to the thrown error (JS `Error` has no cause unless passed). -/
structure ThrownError where
  message : String
  cause : Option String
deriving DecidableEq

/-- The ambient JavaScript environment: the `Date.now()` stream, the
`Math.random().toString(36).substr(2, 9)` suffix stream, and injected faults
of the IndexedDB requests (`blobFault`) and of `localStorage` writes
(`metaFault`). -/
structure Env where
  clock : Nat → Nat
  rand : Nat → String
  blobFault : Option String
  metaFault : Option String

/-- The mutable state visible to `StorageService`: the consumed positions of
the two environment streams, the IndexedDB `images` object store (in insertion
order), and the `selfie_checkins` localStorage slot. -/
structure World where
  clockTick : Nat
  randTick : Nat
  images : List StoredImage
  checkins : Option (List CheckinData)

/-- One `Date.now()` call: read the clock stream and advance its tick. -/
def dateNow (env : Env) (w : World) : Nat × World :=
  (env.clock w.clockTick, { w with clockTick := w.clockTick + 1 })

/-- One `Math.random().toString(36).substr(2, 9)` call: read the random-suffix
stream and advance its tick. -/
def mathRandom (env : Env) (w : World) : String × World :=
  (env.rand w.randTick, { w with randTick := w.randTick + 1 })

namespace StorageService

/-- `StorageService.storeImage` (storage.ts, lines 50-68): generate
`img_${Date.now()}_${random}`, build the `StoredImage` with a second
`Date.now()` read, and `store.add` it. `add` rejects with a ConstraintError
when the key already exists; any injected IndexedDB fault also rejects. -/
def storeImage (env : Env) (w : World) (blob : ImageBytes) :
    Except String (String × World) :=
  let (t1, w1) := dateNow env w
  let (r1, w2) := mathRandom env w1
  let imageId := "img_" ++ toString t1 ++ "_" ++ r1
  let (t2, w3) := dateNow env w2
  let imageData : StoredImage := ⟨imageId, blob, t2⟩
  match env.blobFault with
  | some e => .error e
  | none =>
    if w3.images.any (fun i => i.id == imageId) then
      .error ("ConstraintError")
    else
      .ok (imageId, { w3 with images := w3.images ++ [imageData] })

/-- `StorageService.getImage` (storage.ts, lines 71-85): `store.get` succeeds
with the stored value or `undefined`; the promise resolves `result ? result.blob
: null`. -/
def getImage (w : World) (imageId : String) : Option ImageBytes :=
  (w.images.find? (fun i => i.id == imageId)).map (fun i => i.blob)

/-- `StorageService.getAllCheckins` (storage.ts, lines 103-106):
`stored ? JSON.parse(stored) : []`. -/
def getAllCheckins (w : World) : List CheckinData :=
  w.checkins.getD []

/-- `StorageService.storeCheckin` (storage.ts, lines 88-100): generate
`checkin_${Date.now()}_${random}`, read the existing list, push the new record
and `setItem` the whole list back. `setItem` throws on an injected fault. -/
def storeCheckin (env : Env) (w : World) (data : CheckinInput) :
    Except String (String × World) :=
  let (t, w1) := dateNow env w
  let (r, w2) := mathRandom env w1
  let checkinId := "checkin_" ++ toString t ++ "_" ++ r
  let checkinData := data.withId checkinId
  let existingData := getAllCheckins w2
  match env.metaFault with
  | some e => .error e
  | none => .ok (checkinId, { w2 with checkins := some (existingData ++ [checkinData]) })

/-- `StorageService.getCheckin` (storage.ts, lines 109-112). -/
def getCheckin (w : World) (i : String) : Option CheckinData :=
  (getAllCheckins w).find? (fun c => c.id == i)

/-- `StorageService.storeCompleteCheckin` (storage.ts, lines 115-146): store
the image, append the metadata (with a fresh `Date.now()` as its timestamp),
and return a composed record whose timestamp is yet another `Date.now()` read.
Every underlying fault is caught and re-thrown as
`new Error('Failed to store check-in data')` — with no cause attached. -/
def storeCompleteCheckin (env : Env) (w : World) (userCode : String)
    (location : LocationReading) (imageBlob : ImageBytes) (submissionId : String) :
    Except ThrownError (CheckinData × World) :=
  match storeImage env w imageBlob with
  | .error _ => .error ⟨"Failed to store check-in data", none⟩
  | .ok (imageId, w1) =>
    let (t, w2) := dateNow env w1
    match storeCheckin env w2 ⟨userCode, t, location, imageId, submissionId⟩ with
    | .error _ => .error ⟨"Failed to store check-in data", none⟩
    | .ok (checkinId, w3) =>
      let (t2, w4) := dateNow env w3
      .ok (⟨checkinId, userCode, t2, location, imageId, submissionId⟩, w4)

/-- `FileReader.readAsDataURL`, modelled as a concrete text-safe rendering of
the bytes (the claims never depend on the exact base64 alphabet). -/
def blobToDataURL (b : ImageBytes) : String :=
  "data:image/jpeg;base64," ++ String.intercalate "," (b.map toString)

/-- `StorageService.exportData` (storage.ts, lines 149-167): list all records,
and for each record whose blob resolves, add its encoded bytes to the `images`
mapping; a record whose blob is missing contributes nothing. The JS object map
is modelled as an association list in iteration order. -/
def exportData (w : World) :
    Except ThrownError (List CheckinData × List (String × String)) :=
  let checkins := getAllCheckins w
  let images := checkins.foldl
    (fun acc checkin =>
      match getImage w checkin.imageId with
      | some blob => acc ++ [(checkin.imageId, blobToDataURL blob)]
      | none => acc)
    []
  .ok (checkins, images)

/-- `StorageService.clearAllData` (storage.ts, lines 170-183): remove the
localStorage key, then clear the IndexedDB store (the clear request rejects on
an injected fault). -/
def clearAllData (env : Env) (w : World) : Except String World :=
  let w1 : World := { w with checkins := none }
  match env.blobFault with
  | some e => .error e
  | none => .ok { w1 with images := [] }

/-- JSON.stringify of one location, for the size estimate. -/
def locationJson (l : LocationReading) : String :=
  "\x7b\"latitude\":" ++ toString l.latitude ++ ",\"longitude\":" ++ toString l.longitude
    ++ ",\"accuracy\":" ++ toString l.accuracy ++ ",\"timestamp\":" ++ toString l.timestamp
    ++ "\x7d"

/-- JSON.stringify of one record, for the size estimate. -/
def checkinJson (c : CheckinData) : String :=
  "\x7b\"id\":\"" ++ c.id ++ "\",\"userCode\":\"" ++ c.userCode ++ "\",\"timestamp\":"
    ++ toString c.timestamp ++ ",\"location\":" ++ locationJson c.location
    ++ ",\"imageId\":\"" ++ c.imageId ++ "\",\"submissionId\":\"" ++ c.submissionId
    ++ "\"\x7d"

/-- JSON.stringify of the stored list, for the size estimate. -/
def checkinsJson (l : List CheckinData) : String :=
  "[" ++ String.intercalate "," (l.map checkinJson) ++ "]"

/-- `(x / d).toFixed(1)` on a byte count, with integer round-to-nearest. -/
def toFixedOne (x d : Nat) : String :=
  let t := (x * 10 + d / 2) / d
  toString (t / 10) ++ "." ++ toString (t % 10)

/-- `StorageService.estimateStorageSize` (storage.ts, lines 210-220). -/
def estimateStorageSize (w : World) : String :=
  let localStorageSize := (match w.checkins with
    | some l => (checkinsJson l).utf8ByteSize
    | none => ("" : String).utf8ByteSize)
  let estimatedSize := localStorageSize + (getAllCheckins w).length * 500 * 1024
  if estimatedSize < 1024 * 1024 then
    toFixedOne estimatedSize 1024 ++ " KB"
  else
    toFixedOne estimatedSize (1024 * 1024) ++ " MB"

/-- The result record of `getStorageStats`. -/
structure StorageStats where
  totalCheckins : Nat
  totalImages : Nat
  storageSize : String
deriving DecidableEq

/-- `StorageService.getStorageStats` (storage.ts, lines 186-208): index length,
IndexedDB `count()` (which rejects on an injected fault), and the heuristic
size estimate. -/
def getStorageStats (env : Env) (w : World) : Except String StorageStats :=
  let checkins := getAllCheckins w
  match env.blobFault with
  | some e => .error e
  | none => .ok ⟨checkins.length, w.images.length, estimateStorageSize w⟩

end StorageService

/-- A record of the `checkins` Firestore collection, as read back by
`FirebaseStorageService.getAllCheckins` (firebase-storage.ts, lines 21-31;
only the fields `getStats` consumes are listed first, the rest carried for
fidelity). `timestamp` is the `Date.now()` epoch-milliseconds value stored at
submission time. -/
structure FbCheckin where
  userCode : String
  submissionId : String
  latitude : Rat
  longitude : Rat
  accuracy : Rat
  timestamp : Nat
deriving DecidableEq

/-- The result shape of both remote adapters' `getStats`. -/
structure RemoteStats where
  totalCheckins : Nat
  uniqueUsers : Nat
  todayCheckins : Nat
  thisWeekCheckins : Nat
deriving DecidableEq

namespace FirebaseStorageService

/-- `FirebaseStorageService.getStats` (firebase-storage.ts, lines 133-176).
`todayStartMs` is `new Date()` set to local midnight, as epoch ms; `weekAgoMs`
is now minus 7 days, as epoch ms (JS `Date >= Date` compares the ms values).
`fetched` is the outcome of `this.getAllCheckins()`, which throws on any
backend failure; the catch block returns all-zero statistics. -/
def getStats (todayStartMs weekAgoMs : Nat)
    (fetched : Except String (List FbCheckin)) : RemoteStats :=
  match fetched with
  | .error _ => ⟨0, 0, 0, 0⟩
  | .ok allCheckins =>
    ⟨allCheckins.length,
     (allCheckins.map (fun c => c.userCode)).dedup.length,
     (allCheckins.filter (fun c => todayStartMs ≤ c.timestamp)).length,
     (allCheckins.filter (fun c => weekAgoMs ≤ c.timestamp)).length⟩

end FirebaseStorageService

/-- A row of the Supabase `checkins` table as selected by `getStats`
(supabase-storage.ts, line 124): `user_code` and the ISO-8601 `created_at`
string. -/
structure SbRow where
  user_code : String
  created_at : String
deriving DecidableEq

namespace SupabaseStorageService

/-- `SupabaseStorageService.getStats` (supabase-storage.ts, lines 115-155).
`today` is the `YYYY-MM-DD` prefix of the current ISO timestamp; `weekAgo` is
the ISO timestamp of now minus 7 days (JS string `>=` is lexicographic, as is
Lean's `String` order). A thrown backend error yields all-zero statistics. -/
def getStats (today weekAgo : String)
    (fetched : Except String (List SbRow)) : RemoteStats :=
  match fetched with
  | .error _ => ⟨0, 0, 0, 0⟩
  | .ok allCheckins =>
    ⟨allCheckins.length,
     (allCheckins.map (fun c => c.user_code)).dedup.length,
     (allCheckins.filter (fun c => today.isPrefixOf c.created_at)).length,
     (allCheckins.filter (fun c => weekAgo ≤ c.created_at)).length⟩

end SupabaseStorageService

/-- `ApiResponse<T>` from api.ts (lines 13-17). -/
structure ApiResponse (α : Type) where
  success : Bool
  data : Option α
  error : Option String
deriving DecidableEq

/-- The data of a successful `submitCompleteCheckin` (api.ts, lines 99-105). -/
structure SubmitData where
  checkinId : String
  imageUrl : String
deriving DecidableEq

/-- The remote side of one `storeCheckinWithSync` run: the result of
`apiService.healthCheck()` (which catches internally and returns a boolean)
and the response `apiService.submitCompleteCheckin` would produce if reached
(it catches every fault internally and returns an `ApiResponse`, never
throwing). -/
structure RemoteEnv where
  healthy : Bool
  submitResponse : ApiResponse SubmitData

/-- The result shape of `storeCheckinWithSync` (api.ts, line 166). -/
structure SyncOutcome where
  localId : String
  synced : Bool
  error : Option String
deriving DecidableEq

namespace HybridStorageService

/-- `HybridStorageService.storeCheckinWithSync` (api.ts, lines 161-214):
always store locally first via `storageService.storeCompleteCheckin`; if that
throws, re-throw `new Error('Failed to store checkin locally')`. Then probe
`healthCheck()`; when healthy, build the remote payload (one `Date.now()`
read) and attempt `submitCompleteCheckin`, returning `synced: true` on
success and `synced: false` with the reported error otherwise; when not
healthy, return `synced: false` with `'Server not available'`. -/
def storeCheckinWithSync (env : Env) (remote : RemoteEnv) (w : World)
    (userCode : String) (location : LocationReading) (imageBlob : ImageBytes)
    (submissionId : String) : Except ThrownError (SyncOutcome × World) :=
  match StorageService.storeCompleteCheckin env w userCode location imageBlob submissionId with
  | .error _ => .error ⟨"Failed to store checkin locally", none⟩
  | .ok (localCheckin, w1) =>
    if remote.healthy then
      let (_, w2) := dateNow env w1
      if remote.submitResponse.success then
        .ok (⟨localCheckin.id, true, none⟩, w2)
      else
        .ok (⟨localCheckin.id, false, remote.submitResponse.error⟩, w2)
    else
      .ok (⟨localCheckin.id, false, some ("Server not available")⟩, w1)

end HybridStorageService

/-- The spec's range constraints on a `LocationReading` (data model, section 3):
latitude in [-90, 90], longitude in [-180, 180], accuracy ≥ 0. The code never
checks these; the predicate is used only to state claim hypotheses about valid
inputs. -/
def ValidLocation (l : LocationReading) : Prop :=
  -90 ≤ l.latitude ∧ l.latitude ≤ 90 ∧ -180 ≤ l.longitude ∧ l.longitude ≤ 180 ∧
    0 ≤ l.accuracy

instance (l : LocationReading) : Decidable (ValidLocation l) := by
  unfold ValidLocation
  infer_instance

/-- The id `storeImage` generates when invoked with clock tick `ct` and random
tick `rt`. -/
def genImageId (env : Env) (ct rt : Nat) : String :=
  "img_" ++ toString (env.clock ct) ++ "_" ++ env.rand rt

/-- The id `storeCheckin` generates when invoked with clock tick `ct` and
random tick `rt`. -/
def genCheckinId (env : Env) (ct rt : Nat) : String :=
  "checkin_" ++ toString (env.clock ct) ++ "_" ++ env.rand rt

/-! ## Helper lemmas -/

theorem find?_append_of_forall_not {α : Type} (p : α → Bool) (l1 l2 : List α)
    (h : ∀ x ∈ l1, p x = false) : (l1 ++ l2).find? p = l2.find? p := by
  induction l1 with
  | nil => rfl
  | cons a l ih =>
    have ha := h a (by simp)
    simp only [List.cons_append, List.find?, ha]
    exact ih (fun x hx => h x (by simp [hx]))

/-- `storeImage` under no injected fault and a fresh generated id: the exact
result. -/
theorem storeImage_ok (env : Env) (w : World) (blob : ImageBytes)
    (hB : env.blobFault = none)
    (hFresh : ∀ i ∈ w.images, ¬ i.id = genImageId env w.clockTick w.randTick) :
    StorageService.storeImage env w blob =
      .ok (genImageId env w.clockTick w.randTick,
           { clockTick := w.clockTick + 1 + 1, randTick := w.randTick + 1,
             images := w.images ++
               [⟨genImageId env w.clockTick w.randTick, blob, env.clock (w.clockTick + 1)⟩],
             checkins := w.checkins }) := by
  obtain ⟨ct, rt, imgs, cks⟩ := w
  have hany : imgs.any (fun i => i.id == genImageId env ct rt) = false := by
    simp only [List.any_eq_false]
    intro i hi
    simpa using hFresh i hi
  simp [StorageService.storeImage, dateNow, mathRandom, hB, genImageId, hany]
  intro x hx
  simpa [genImageId] using hFresh x hx

/-- `storeCheckin` under no injected fault: the exact result. -/
theorem storeCheckin_ok (env : Env) (w : World) (data : CheckinInput)
    (hM : env.metaFault = none) :
    StorageService.storeCheckin env w data =
      .ok (genCheckinId env w.clockTick w.randTick,
           { clockTick := w.clockTick + 1, randTick := w.randTick + 1,
             images := w.images,
             checkins := some (StorageService.getAllCheckins w ++
               [data.withId (genCheckinId env w.clockTick w.randTick)]) }) := by
  obtain ⟨ct, rt, imgs, cks⟩ := w
  simp [StorageService.storeCheckin, dateNow, mathRandom, hM, genCheckinId,
    StorageService.getAllCheckins]

/-- `storeCompleteCheckin` under no injected fault and a fresh image id: the
exact returned record and the exact post-state, clock reads spelled out. -/
theorem storeCompleteCheckin_ok_eq (env : Env) (w : World) (userCode : String)
    (location : LocationReading) (imageBlob : ImageBytes) (submissionId : String)
    (hB : env.blobFault = none) (hM : env.metaFault = none)
    (hFresh : ∀ i ∈ w.images, ¬ i.id = genImageId env w.clockTick w.randTick) :
    StorageService.storeCompleteCheckin env w userCode location imageBlob submissionId =
      .ok (⟨genCheckinId env (w.clockTick + 1 + 1 + 1) (w.randTick + 1),
            userCode, env.clock (w.clockTick + 1 + 1 + 1 + 1), location,
            genImageId env w.clockTick w.randTick, submissionId⟩,
           { clockTick := w.clockTick + 1 + 1 + 1 + 1 + 1, randTick := w.randTick + 1 + 1,
             images := w.images ++
               [⟨genImageId env w.clockTick w.randTick, imageBlob, env.clock (w.clockTick + 1)⟩],
             checkins := some (StorageService.getAllCheckins w ++
               [⟨genCheckinId env (w.clockTick + 1 + 1 + 1) (w.randTick + 1),
                 userCode, env.clock (w.clockTick + 1 + 1), location,
                 genImageId env w.clockTick w.randTick, submissionId⟩]) }) := by
  rw [StorageService.storeCompleteCheckin, storeImage_ok env w imageBlob hB hFresh]
  simp only [dateNow]
  rw [storeCheckin_ok env _ _ hM]
  obtain ⟨ct, rt, imgs, cks⟩ := w
  simp [StorageService.getAllCheckins, CheckinInput.withId]

/-- Every outcome of `storeCompleteCheckin` is either a success value or the
single fixed error thrown by its catch block. -/
theorem storeCompleteCheckin_error_shape (env : Env) (w : World) (userCode : String)
    (location : LocationReading) (imageBlob : ImageBytes) (submissionId : String) :
    (∃ p, StorageService.storeCompleteCheckin env w userCode location imageBlob submissionId
        = .ok p) ∨
    StorageService.storeCompleteCheckin env w userCode location imageBlob submissionId
        = .error ⟨"Failed to store check-in data", none⟩ := by
  rcases hImg : StorageService.storeImage env w imageBlob with e1 | p
  · right
    unfold StorageService.storeCompleteCheckin
    rw [hImg]
  · obtain ⟨imageId, w1⟩ := p
    rcases hChk : StorageService.storeCheckin env { w1 with clockTick := w1.clockTick + 1 }
        ⟨userCode, env.clock w1.clockTick, location, imageId, submissionId⟩ with e2 | q
    · right
      unfold StorageService.storeCompleteCheckin
      rw [hImg]
      simp only [dateNow]
      rw [hChk]
    · left
      unfold StorageService.storeCompleteCheckin
      simp only [hImg, dateNow, hChk]
      exact ⟨_, rfl⟩

/-! ## Concrete inputs for witnesses and counterexamples -/

/-- A zeroed clock/random environment with no injected faults. -/
def envZero : Env := ⟨fun _ => 0, fun _ => "r", none, none⟩

/-- An identity-clock environment with no injected faults, so successive
`Date.now()` reads return distinct values. -/
def envTick : Env := ⟨fun n => n, fun _ => "r", none, none⟩

/-- An environment whose IndexedDB requests fail with a quota error. -/
def envBlobFault : Env := ⟨fun _ => 0, fun _ => "r", some ("QuotaExceededError"), none⟩

/-- The empty store. -/
def wEmpty : World := ⟨0, 0, [], none⟩

/-- A location inside all the spec's ranges. -/
def locValid : LocationReading := ⟨40, -74, 5, 0⟩

/-- A location violating every range constraint of the spec's data model. -/
def locBad : LocationReading := ⟨1000, 2000, -5, 0⟩

/-- A record whose `imageId` resolves to no stored blob. -/
def recOrphan : CheckinData := ⟨"checkin_a", "U1", 5, locValid, "img_missing", "SUB_1"⟩

/-- A store holding `recOrphan` and no blobs at all. -/
def wOrphan : World := ⟨0, 0, [], some [recOrphan]⟩

/-- A populated store, input to the clear-then-stats witness. -/
def wPopulated : World :=
  ⟨7, 4, [⟨"img_1_r", [1, 2, 3], 1⟩], some [⟨"checkin_2_r", "U1", 2, locValid, "img_1_r", "SUB_1"⟩]⟩

/-- An unreachable remote backend. -/
def remoteDown : RemoteEnv := ⟨false, ⟨false, none, none⟩⟩

/-! ## Claims -/

/-- C7: For every store state and every successful append, the metadata index
grows by exactly one record, appended at the end: `getAllCheckins` afterwards
returns the previous list unchanged as a prefix followed by the new record. -/
theorem C7_storeCheckin_appends_one (env : Env) (w : World) (data : CheckinInput)
    (hM : env.metaFault = none) :
    ∃ cid w', StorageService.storeCheckin env w data = .ok (cid, w') ∧
      StorageService.getAllCheckins w' = StorageService.getAllCheckins w ++ [data.withId cid] ∧
      (StorageService.getAllCheckins w').length
        = (StorageService.getAllCheckins w).length + 1 := by
  refine ⟨_, _, storeCheckin_ok env w data hM, ?_, ?_⟩ <;>
    simp [StorageService.getAllCheckins]

/-- Witness for C7 at a concrete input. -/
theorem C7_witness :
    envZero.metaFault = none ∧
    ∃ cid w', StorageService.storeCheckin envZero wPopulated ⟨"U2", 9, locValid, "img_9_r", "SUB_2"⟩
        = .ok (cid, w') ∧
      StorageService.getAllCheckins w'
        = StorageService.getAllCheckins wPopulated
            ++ [CheckinInput.withId ⟨"U2", 9, locValid, "img_9_r", "SUB_2"⟩ cid] ∧
      (StorageService.getAllCheckins w').length
        = (StorageService.getAllCheckins wPopulated).length + 1 :=
  ⟨rfl, C7_storeCheckin_appends_one envZero wPopulated ⟨"U2", 9, locValid, "img_9_r", "SUB_2"⟩ rfl⟩

/-- C5 counterexample: with an underlying quota fault in the blob store,
`storeCompleteCheckin` does fail with a single error, but that error's message
is the fixed string and no cause is attached, so the original
"QuotaExceededError" cause is not preserved. -/
theorem C5_counterexample :
    ∃ e, StorageService.storeCompleteCheckin envBlobFault wEmpty "U1" locValid [7] "SUB_1"
        = .error e ∧ e.cause = none ∧ ¬ e.cause = some ("QuotaExceededError") ∧
      ¬ (e.message = "QuotaExceededError" ∨ e.cause = some ("QuotaExceededError")) := by
  refine ⟨⟨"Failed to store check-in data", none⟩, rfl, rfl, by simp, ?_⟩
  simp

/-- C5 amended: every underlying fault during `storeCompleteCheckin` is
replaced by the one fixed error `'Failed to store check-in data'`, with no
cause attached: the original cause is logged but not preserved in the thrown
error. -/
theorem C5_amended_single_fixed_error (env : Env) (w : World) (userCode : String)
    (location : LocationReading) (imageBlob : ImageBytes) (submissionId : String)
    (e : ThrownError)
    (h : StorageService.storeCompleteCheckin env w userCode location imageBlob submissionId
        = .error e) :
    e = ⟨"Failed to store check-in data", none⟩ := by
  rcases storeCompleteCheckin_error_shape env w userCode location imageBlob submissionId with
    ⟨p, hp⟩ | hErr
  · rw [hp] at h
    cases h
  · have h2 := hErr.symm.trans h
    injection h2 with h2
    exact h2.symm

/-- Witness for C5's amended claim at a concrete faulting input. -/
theorem C5_amended_witness :
    (⟨"Failed to store check-in data", none⟩ : ThrownError)
      = ⟨"Failed to store check-in data", none⟩ :=
  C5_amended_single_fixed_error envBlobFault wEmpty "U1" locValid [7] "SUB_1"
    ⟨"Failed to store check-in data", none⟩ rfl

/-- C3 counterexample: a call with an empty `userCode` and a `LocationReading`
outside every range is not rejected: it succeeds, and both the blob write and
the metadata append take place. -/
theorem C3_counterexample :
    (¬ ValidLocation locBad) ∧
    ∃ rec w', StorageService.storeCompleteCheckin envZero wEmpty "" locBad [7] "SUB_1"
        = .ok (rec, w') ∧
      (StorageService.getAllCheckins w').length = 1 ∧ w'.images.length = 1 :=
  ⟨by decide, _, _, rfl, rfl, rfl⟩

/-- C3 amended: `storeCompleteCheckin` performs no input validation at all:
for every input — malformed or not — with no underlying persistence fault and
a fresh generated image id, the call succeeds and performs its blob write and
metadata append. -/
theorem C3_amended_no_validation (env : Env) (w : World) (userCode : String)
    (location : LocationReading) (imageBlob : ImageBytes) (submissionId : String)
    (hB : env.blobFault = none) (hM : env.metaFault = none)
    (hFresh : ∀ i ∈ w.images, ¬ i.id = genImageId env w.clockTick w.randTick) :
    ∃ rec w', StorageService.storeCompleteCheckin env w userCode location imageBlob submissionId
        = .ok (rec, w') ∧
      (StorageService.getAllCheckins w').length
        = (StorageService.getAllCheckins w).length + 1 ∧
      w'.images.length = w.images.length + 1 := by
  refine ⟨_, _,
    storeCompleteCheckin_ok_eq env w userCode location imageBlob submissionId hB hM hFresh,
    ?_, ?_⟩ <;>
    simp [StorageService.getAllCheckins]

/-- Witness for C3's amended claim, at the invalid input of the
counterexample. -/
theorem C3_amended_witness :
    envZero.blobFault = none ∧
    ∃ rec w', StorageService.storeCompleteCheckin envZero wEmpty "" locBad [7] "SUB_1"
        = .ok (rec, w') ∧
      (StorageService.getAllCheckins w').length
        = (StorageService.getAllCheckins wEmpty).length + 1 ∧
      w'.images.length = wEmpty.images.length + 1 :=
  ⟨rfl, C3_amended_no_validation envZero wEmpty "" locBad [7] "SUB_1" rfl rfl (by simp [wEmpty])⟩

/-- C1: For every valid input (non-empty userCode, in-range LocationReading,
non-empty image bytes, submissionId), a successful `storeCompleteCheckin` (no
underlying persistence fault, fresh generated image id) returns a record whose
`imageId`, passed to `getImage`, resolves to exactly the byte sequence that
was supplied to the call. -/
theorem C1_blob_roundtrip (env : Env) (w : World) (userCode : String)
    (location : LocationReading) (imageBlob : ImageBytes) (submissionId : String)
    (hUser : ¬ userCode = "") (hLoc : ValidLocation location) (hBytes : ¬ imageBlob = [])
    (hB : env.blobFault = none) (hM : env.metaFault = none)
    (hFresh : ∀ i ∈ w.images, ¬ i.id = genImageId env w.clockTick w.randTick) :
    ∃ rec w', StorageService.storeCompleteCheckin env w userCode location imageBlob submissionId
        = .ok (rec, w') ∧
      StorageService.getImage w' rec.imageId = some imageBlob := by
  refine ⟨_, _,
    storeCompleteCheckin_ok_eq env w userCode location imageBlob submissionId hB hM hFresh,
    ?_⟩
  simp only [StorageService.getImage]
  rw [find?_append_of_forall_not _ _ _ (fun i hi => by simpa using hFresh i hi)]
  simp [List.find?]

/-- Witness for C1 at the spec's scenario input. -/
theorem C1_witness :
    (¬ ("FIELD_01" : String) = "") ∧ ValidLocation locValid ∧
    ∃ rec w', StorageService.storeCompleteCheckin envZero wEmpty "FIELD_01" locValid [1, 2, 3]
          "VER-ABC123" = .ok (rec, w') ∧
      StorageService.getImage w' rec.imageId = some [1, 2, 3] :=
  ⟨by decide, by decide,
   C1_blob_roundtrip envZero wEmpty "FIELD_01" locValid [1, 2, 3] "VER-ABC123"
     (by decide) (by decide) (by decide) rfl rfl (by simp [wEmpty])⟩

/-- C10: For every successful `storeCompleteCheckin` call, the returned record
agrees with the record persisted in the metadata index on id, userCode,
location, imageId and submissionId, but the two timestamps come from two
distinct clock reads — the returned record's from a strictly later one — so
they may differ. -/
theorem C10_returned_record_second_clock_read (env : Env) (w : World) (userCode : String)
    (location : LocationReading) (imageBlob : ImageBytes) (submissionId : String)
    (hB : env.blobFault = none) (hM : env.metaFault = none)
    (hFresh : ∀ i ∈ w.images, ¬ i.id = genImageId env w.clockTick w.randTick) :
    ∃ ret rec w' i j,
      StorageService.storeCompleteCheckin env w userCode location imageBlob submissionId
        = .ok (ret, w') ∧
      StorageService.getAllCheckins w' = StorageService.getAllCheckins w ++ [rec] ∧
      ret.id = rec.id ∧ ret.userCode = rec.userCode ∧ ret.location = rec.location ∧
      ret.imageId = rec.imageId ∧ ret.submissionId = rec.submissionId ∧
      rec.timestamp = env.clock i ∧ ret.timestamp = env.clock j ∧ i < j := by
  refine ⟨_,
    ⟨genCheckinId env (w.clockTick + 1 + 1 + 1) (w.randTick + 1), userCode,
     env.clock (w.clockTick + 1 + 1), location, genImageId env w.clockTick w.randTick,
     submissionId⟩,
    _, w.clockTick + 1 + 1, w.clockTick + 1 + 1 + 1 + 1,
    storeCompleteCheckin_ok_eq env w userCode location imageBlob submissionId hB hM hFresh,
    ?_, rfl, rfl, rfl, rfl, rfl, rfl, rfl, by omega⟩
  simp [StorageService.getAllCheckins]

/-- Witness for C10: under a ticking clock the two reads return 2 and 4, so
the returned record's timestamp (4) differs from the persisted one (2). -/
theorem C10_witness :
    (∃ ret rec w' i j,
      StorageService.storeCompleteCheckin envTick wEmpty "U1" locValid [9] "SUB_1"
        = .ok (ret, w') ∧
      StorageService.getAllCheckins w' = StorageService.getAllCheckins wEmpty ++ [rec] ∧
      ret.id = rec.id ∧ ret.userCode = rec.userCode ∧ ret.location = rec.location ∧
      ret.imageId = rec.imageId ∧ ret.submissionId = rec.submissionId ∧
      rec.timestamp = envTick.clock i ∧ ret.timestamp = envTick.clock j ∧ i < j) ∧
    StorageService.storeCompleteCheckin envTick wEmpty "U1" locValid [9] "SUB_1"
      = .ok (⟨"checkin_3_r", "U1", 4, locValid, "img_0_r", "SUB_1"⟩,
             ⟨5, 2, [⟨"img_0_r", [9], 1⟩],
              some [⟨"checkin_3_r", "U1", 2, locValid, "img_0_r", "SUB_1"⟩]⟩) ∧
    (4 : Nat) ≠ 2 :=
  ⟨C10_returned_record_second_clock_read envTick wEmpty "U1" locValid [9] "SUB_1"
     rfl rfl (by simp [wEmpty]), rfl, by decide⟩

/-- C6: after a successful `clearAllData`, a successful `getStorageStats`
reports zero check-ins and zero images, whatever was stored beforehand. -/
theorem C6_clear_then_stats_zero (env : Env) (w w' : World)
    (h : StorageService.clearAllData env w = .ok w') :
    ∃ s, StorageService.getStorageStats env w' = .ok s ∧
      s.totalCheckins = 0 ∧ s.totalImages = 0 := by
  unfold StorageService.clearAllData at h
  cases hB : env.blobFault with
  | some e =>
    rw [hB] at h
    cases h
  | none =>
    rw [hB] at h
    injection h with h
    subst h
    refine ⟨⟨0, 0, StorageService.estimateStorageSize
      { clockTick := w.clockTick, randTick := w.randTick, images := [], checkins := none }⟩,
      ?_, rfl, rfl⟩
    simp [StorageService.getStorageStats, hB, StorageService.getAllCheckins]

/-- Witness for C6: clearing a populated store and then asking for stats. -/
theorem C6_witness :
    ∃ s, StorageService.getStorageStats envZero ⟨7, 4, [], none⟩ = .ok s ∧
      s.totalCheckins = 0 ∧ s.totalImages = 0 :=
  C6_clear_then_stats_zero envZero wPopulated ⟨7, 4, [], none⟩ rfl

/-- C2: whenever the local commit succeeds, `storeCheckinWithSync` never
throws on a remote failure (unreachable backend, or a failed upload/insert):
it returns a `synced: false` outcome carrying the local id, the local commit
is already in the returned state (the remote attempt cannot touch or roll
back the local stores), and the stored record remains retrievable by
`getCheckin` and its blob by `getImage`. -/
theorem C2_remote_failure_never_rolls_back_local (env : Env) (remote : RemoteEnv)
    (w : World) (userCode : String) (location : LocationReading)
    (imageBlob : ImageBytes) (submissionId : String)
    (hB : env.blobFault = none) (hM : env.metaFault = none)
    (hFreshImg : ∀ i ∈ w.images, ¬ i.id = genImageId env w.clockTick w.randTick)
    (hFreshId : ∀ c ∈ StorageService.getAllCheckins w,
      ¬ c.id = genCheckinId env (w.clockTick + 1 + 1 + 1) (w.randTick + 1))
    (hRemoteFail : remote.healthy = false ∨ remote.submitResponse.success = false) :
    ∃ outcome w' rec,
      HybridStorageService.storeCheckinWithSync env remote w userCode location imageBlob
          submissionId = .ok (outcome, w') ∧
      outcome.synced = false ∧
      outcome.localId = rec.id ∧
      StorageService.getAllCheckins w' = StorageService.getAllCheckins w ++ [rec] ∧
      StorageService.getCheckin w' outcome.localId = some rec ∧
      StorageService.getImage w' rec.imageId = some imageBlob ∧
      rec.userCode = userCode ∧ rec.location = location ∧
      rec.submissionId = submissionId := by
  have hret := storeCompleteCheckin_ok_eq env w userCode location imageBlob submissionId
    hB hM hFreshImg
  unfold HybridStorageService.storeCheckinWithSync
  rw [hret]
  set cid := genCheckinId env (w.clockTick + 1 + 1 + 1) (w.randTick + 1) with hcid
  set imgId := genImageId env w.clockTick w.randTick with himg
  set rec : CheckinData :=
    ⟨cid, userCode, env.clock (w.clockTick + 1 + 1), location, imgId, submissionId⟩ with hrec
  have hGetAll : ∀ ct2 rt2 : Nat,
      StorageService.getAllCheckins
        ⟨ct2, rt2,
         w.images ++ [⟨imgId, imageBlob, env.clock (w.clockTick + 1)⟩],
         some (StorageService.getAllCheckins w ++ [rec])⟩
      = StorageService.getAllCheckins w ++ [rec] := by
    intro ct2 rt2
    simp [StorageService.getAllCheckins]
  have hGetCheckin : ∀ ct2 rt2 : Nat,
      StorageService.getCheckin
        ⟨ct2, rt2,
         w.images ++ [⟨imgId, imageBlob, env.clock (w.clockTick + 1)⟩],
         some (StorageService.getAllCheckins w ++ [rec])⟩ cid = some rec := by
    intro ct2 rt2
    unfold StorageService.getCheckin
    rw [hGetAll]
    rw [find?_append_of_forall_not _ _ _ (fun c hc => by simpa using hFreshId c hc)]
    simp [List.find?, hrec]
  have hGetImage : ∀ ct2 rt2 : Nat,
      StorageService.getImage
        ⟨ct2, rt2,
         w.images ++ [⟨imgId, imageBlob, env.clock (w.clockTick + 1)⟩],
         some (StorageService.getAllCheckins w ++ [rec])⟩ imgId = some imageBlob := by
    intro ct2 rt2
    unfold StorageService.getImage
    rw [find?_append_of_forall_not _ _ _ (fun i hi => by simpa using hFreshImg i hi)]
    simp [List.find?]
  cases hh : remote.healthy with
  | false =>
    refine ⟨_, _, rec, rfl, rfl, rfl, hGetAll _ _, hGetCheckin _ _, hGetImage _ _,
      rfl, rfl, rfl⟩
  | true =>
    have hs : remote.submitResponse.success = false := by
      rcases hRemoteFail with h1 | h1
      · rw [hh] at h1
        cases h1
      · exact h1
    simp only [dateNow, hs, if_false, Bool.false_eq_true, if_true]
    refine ⟨_, _, rec, rfl, rfl, rfl, hGetAll _ _, hGetCheckin _ _, hGetImage _ _,
      rfl, rfl, rfl⟩

/-- Witness for C2: an unreachable backend on an empty local store. -/
theorem C2_witness :
    ∃ outcome w' rec,
      HybridStorageService.storeCheckinWithSync envZero remoteDown wEmpty "FIELD_01" locValid
          [1, 2, 3] "VER-ABC123" = .ok (outcome, w') ∧
      outcome.synced = false ∧
      outcome.localId = rec.id ∧
      StorageService.getAllCheckins w' = StorageService.getAllCheckins wEmpty ++ [rec] ∧
      StorageService.getCheckin w' outcome.localId = some rec ∧
      StorageService.getImage w' rec.imageId = some [1, 2, 3] ∧
      rec.userCode = "FIELD_01" ∧ rec.location = locValid ∧
      rec.submissionId = "VER-ABC123" :=
  C2_remote_failure_never_rolls_back_local envZero remoteDown wEmpty "FIELD_01" locValid
    [1, 2, 3] "VER-ABC123" rfl rfl (by simp [wEmpty]) (by simp [wEmpty, StorageService.getAllCheckins])
    (Or.inl rfl)

theorem lookup_append_none {β : Type} {l1 l2 : List (String × β)} {k : String}
    (h1 : l1.lookup k = none) (h2 : l2.lookup k = none) :
    (l1 ++ l2).lookup k = none := by
  induction l1 with
  | nil => simpa using h2
  | cons a l ih =>
    obtain ⟨k1, v1⟩ := a
    simp only [List.cons_append, List.lookup] at h1 ⊢
    cases hk : (k == k1) with
    | true =>
      rw [hk] at h1
      simp at h1
    | false =>
      rw [hk] at h1
      exact ih h1

/-- The export fold never adds an entry under a key whose blob is missing. -/
theorem exportFold_lookup_none (w : World) (k : String)
    (hmiss : StorageService.getImage w k = none) :
    ∀ (l : List CheckinData) (acc : List (String × String)), acc.lookup k = none →
      (l.foldl
        (fun acc checkin =>
          match StorageService.getImage w checkin.imageId with
          | some blob => acc ++ [(checkin.imageId, StorageService.blobToDataURL blob)]
          | none => acc)
        acc).lookup k = none := by
  intro l
  induction l with
  | nil =>
    intro acc hacc
    simpa using hacc
  | cons c l ih =>
    intro acc hacc
    simp only [List.foldl_cons]
    cases hg : StorageService.getImage w c.imageId with
    | none =>
      simp only [hg]
      exact ih acc hacc
    | some blob =>
      simp only [hg]
      have hne : (k == c.imageId) = false := by
        apply beq_eq_false_iff_ne.mpr
        intro hkc
        rw [hkc] at hmiss
        rw [hmiss] at hg
        cases hg
      refine ih _ (lookup_append_none hacc ?_)
      simp [List.lookup, hne]

/-- C4 counterexample: at a store holding one record whose image reference
resolves to no blob, `exportData` does not fail: it succeeds, keeps the
record in the snapshot's record list, and simply emits an empty blob
mapping. -/
theorem C4_counterexample :
    StorageService.getImage wOrphan recOrphan.imageId = none ∧
    StorageService.exportData wOrphan = .ok ([recOrphan], []) :=
  ⟨rfl, rfl⟩

/-- C4 amended: a record whose image reference does not resolve is skipped,
not fatal: the export always succeeds, every record (including that one)
appears in the snapshot's record list, and the blob mapping simply has no
entry under that record's image id. -/
theorem C4_missing_blob_is_skipped (w : World) (c : CheckinData)
    (hc : c ∈ StorageService.getAllCheckins w)
    (hmiss : StorageService.getImage w c.imageId = none) :
    ∃ snap, StorageService.exportData w = .ok snap ∧ c ∈ snap.1 ∧
      snap.2.lookup c.imageId = none := by
  refine ⟨_, rfl, hc, ?_⟩
  exact exportFold_lookup_none w c.imageId hmiss (StorageService.getAllCheckins w) [] rfl

/-- Witness for C4's amended claim at the orphaned-record store. -/
theorem C4_amended_witness :
    recOrphan ∈ StorageService.getAllCheckins wOrphan ∧
    ∃ snap, StorageService.exportData wOrphan = .ok snap ∧ recOrphan ∈ snap.1 ∧
      snap.2.lookup recOrphan.imageId = none :=
  ⟨by simp [wOrphan, StorageService.getAllCheckins],
   C4_missing_blob_is_skipped wOrphan recOrphan
     (by simp [wOrphan, StorageService.getAllCheckins]) rfl⟩

/-- C8: over any successfully fetched collection, the Firebase adapter's
`getStats` returns the record count as `totalCheckins`, the number of distinct
`userCode` values as `uniqueUsers`, and — provided every record was created no
later than "now" and "now" lies inside the current local calendar day starting
at `todayStartMs` — the number of records created within that calendar day as
`todayCheckins`. -/
theorem C8_firebase_getStats (todayStartMs weekAgoMs nowMs : Nat) (l : List FbCheckin)
    (hnow1 : todayStartMs ≤ nowMs) (hnow2 : nowMs < todayStartMs + 86400000)
    (hts : ∀ c ∈ l, c.timestamp ≤ nowMs) :
    (FirebaseStorageService.getStats todayStartMs weekAgoMs (.ok l)).totalCheckins
        = l.length ∧
    (FirebaseStorageService.getStats todayStartMs weekAgoMs (.ok l)).uniqueUsers
        = (l.map (fun c => c.userCode)).toFinset.card ∧
    (FirebaseStorageService.getStats todayStartMs weekAgoMs (.ok l)).todayCheckins
        = (l.filter (fun c =>
            decide (todayStartMs ≤ c.timestamp ∧ c.timestamp < todayStartMs + 86400000))).length := by
  refine ⟨rfl, ?_, ?_⟩
  · simp [FirebaseStorageService.getStats, List.card_toFinset]
  · show (l.filter (fun c => decide (todayStartMs ≤ c.timestamp))).length = _
    congr 1
    apply List.filter_congr
    intro c hc
    have hcle := hts c hc
    simp only [decide_eq_decide]
    omega

/-- Witness for C8, the spec's scenario: 3 records from 2 distinct userCodes,
1 of them created today, give `{total: 3, uniqueUsers: 2, todayCount: 1}`. -/
theorem C8_witness :
    ((1000 : Nat) ≤ 1500 ∧ (1500 : Nat) < 1000 + 86400000 ∧
      (∀ c ∈ ([⟨"A", "S1", 40, -74, 5, 1200⟩, ⟨"B", "S2", 40, -74, 5, 500⟩,
               ⟨"A", "S3", 40, -74, 5, 700⟩] : List FbCheckin), c.timestamp ≤ 1500)) ∧
    ((FirebaseStorageService.getStats 1000 0
        (.ok [⟨"A", "S1", 40, -74, 5, 1200⟩, ⟨"B", "S2", 40, -74, 5, 500⟩,
              ⟨"A", "S3", 40, -74, 5, 700⟩])).totalCheckins = 3 ∧
     (FirebaseStorageService.getStats 1000 0
        (.ok [⟨"A", "S1", 40, -74, 5, 1200⟩, ⟨"B", "S2", 40, -74, 5, 500⟩,
              ⟨"A", "S3", 40, -74, 5, 700⟩])).uniqueUsers = 2 ∧
     (FirebaseStorageService.getStats 1000 0
        (.ok [⟨"A", "S1", 40, -74, 5, 1200⟩, ⟨"B", "S2", 40, -74, 5, 500⟩,
              ⟨"A", "S3", 40, -74, 5, 700⟩])).todayCheckins = 1) ∧
    ((FirebaseStorageService.getStats 1000 0
        (.ok [⟨"A", "S1", 40, -74, 5, 1200⟩, ⟨"B", "S2", 40, -74, 5, 500⟩,
              ⟨"A", "S3", 40, -74, 5, 700⟩])).totalCheckins
        = ([⟨"A", "S1", 40, -74, 5, 1200⟩, ⟨"B", "S2", 40, -74, 5, 500⟩,
            ⟨"A", "S3", 40, -74, 5, 700⟩] : List FbCheckin).length ∧
     (FirebaseStorageService.getStats 1000 0
        (.ok [⟨"A", "S1", 40, -74, 5, 1200⟩, ⟨"B", "S2", 40, -74, 5, 500⟩,
              ⟨"A", "S3", 40, -74, 5, 700⟩])).uniqueUsers
        = (([⟨"A", "S1", 40, -74, 5, 1200⟩, ⟨"B", "S2", 40, -74, 5, 500⟩,
             ⟨"A", "S3", 40, -74, 5, 700⟩] : List FbCheckin).map
            (fun c => c.userCode)).toFinset.card ∧
     (FirebaseStorageService.getStats 1000 0
        (.ok [⟨"A", "S1", 40, -74, 5, 1200⟩, ⟨"B", "S2", 40, -74, 5, 500⟩,
              ⟨"A", "S3", 40, -74, 5, 700⟩])).todayCheckins
        = (([⟨"A", "S1", 40, -74, 5, 1200⟩, ⟨"B", "S2", 40, -74, 5, 500⟩,
             ⟨"A", "S3", 40, -74, 5, 700⟩] : List FbCheckin).filter (fun c =>
            decide ((1000 : Nat) ≤ c.timestamp ∧ c.timestamp < 1000 + 86400000))).length) :=
  ⟨⟨by decide, by decide, by decide⟩, by decide,
   C8_firebase_getStats 1000 0 1500
     [⟨"A", "S1", 40, -74, 5, 1200⟩, ⟨"B", "S2", 40, -74, 5, 500⟩,
      ⟨"A", "S3", 40, -74, 5, 700⟩] (by decide) (by decide) (by decide)⟩

/-- C9: a backend failure during a stats query is swallowed by both remote
adapters: `getStats` returns normally with all-zero statistics, the same
value it returns for an empty store. -/
theorem C9_getStats_swallows_backend_failure (e : String) (todayStartMs weekAgoMs : Nat)
    (today weekAgo : String) :
    FirebaseStorageService.getStats todayStartMs weekAgoMs (.error e) = ⟨0, 0, 0, 0⟩ ∧
    FirebaseStorageService.getStats todayStartMs weekAgoMs (.error e)
      = FirebaseStorageService.getStats todayStartMs weekAgoMs (.ok []) ∧
    SupabaseStorageService.getStats today weekAgo (.error e) = ⟨0, 0, 0, 0⟩ ∧
    SupabaseStorageService.getStats today weekAgo (.error e)
      = SupabaseStorageService.getStats today weekAgo (.ok []) :=
  ⟨rfl, rfl, rfl, rfl⟩

end SelfieCheckin
